import Mathlib

/-
  Shallow embedding of the provisioning core of the SOLID repository:
  `src/sensor_worker.py` (class SensorWorker: run, _wait_for_addr1, _configure)
  and `src/serial_manager.py` (SerialManager._call, read_holding).

  Modelling conventions:
  * Time is in milliseconds (Nat).  `time.sleep(x)` advances an explicit model
    clock by `x` ms; register reads/writes are instantaneous (their real
    duration is not modelled, matching the spec's timing property which is
    stated over the sleep cadence).
  * Every primitive observable action (a cancellation-flag check, a bus
    read/write, a sleep, a worksheet cell write, a workbook save, a status
    callback) occupies one "tick".  The environment `Env` is indexed by tick:
    `skipSetAt t` / `stopSetAt t` mean the operator set the flag while the
    primitive at tick `t` was executing (the threading.Event flags are sticky:
    each primitive first absorbs the flag set during it, so no set is lost),
    `resp t` is the Modbus response to the bus operation issued at tick `t`,
    and `saveFails t` says whether `wb.save` raises at tick `t`.
  * A Modbus call either returns a response object (`ok v` with
    `res.registers[0] = v`, or `err` when `res.isError()` is true), or raises
    an exception (`exn`), which in the worker is caught by the surrounding
    `try`/`except`.
  * Each primitive appends exactly one `Event` to the trace, so the tick of an
    action equals its index in the trace when execution starts from a state
    with `tick = trace.length` (in particular from `initState`).
-/

namespace Solid

/-- Result of one Modbus call as seen by the worker: a response value,
an error response (`isError()` true), or a raised exception. -/
inductive MbRes where
  | ok (value : Nat)
  | err
  | exn
deriving DecidableEq, Repr

/-- Observable primitive actions of the worker, in execution order. -/
inductive Event where
  | checkSkip (value : Bool)
  | checkStop (value : Bool)
  | readReg (reg unitId : Nat) (res : MbRes)
  | writeReg (reg value unitId : Nat) (res : MbRes)
  | sleepMs (ms : Nat)
  | statusCb (row : Nat) (ok : Bool)
  | cellWrite (row serial : Nat)
  | saveWb (ok : Bool)
deriving DecidableEq, Repr

/-- Worker state: tick counter, model clock (ms), the two threading.Event
flags, the `prev_serials` registry, and the trace of performed actions. -/
structure WState where
  tick : Nat
  clock : Nat
  skip : Bool
  stop : Bool
  seen : List Nat
  trace : List Event
deriving DecidableEq, Repr

/-- External environment of one run: operator flag presses, bus responses and
workbook-save outcomes, indexed by the tick at which the primitive runs. -/
structure Env where
  skipSetAt : Nat → Bool
  stopSetAt : Nat → Bool
  resp : Nat → MbRes
  saveFails : Nat → Bool

/-- Fold the operator's flag presses during the current tick into the sticky
flags (threading.Event semantics: a set is never lost). -/
def absorb (env : Env) (s : WState) : WState :=
  { s with skip := s.skip || env.skipSetAt s.tick,
           stop := s.stop || env.stopSetAt s.tick }

/-- Append one event to the trace and advance the tick. -/
def emit (s : WState) (e : Event) : WState :=
  { s with trace := s.trace ++ [e], tick := s.tick + 1 }

/-- The worker's `skip_event.is_set()` check; on observing the flag the worker
always clears it (`skip_event.clear()`). -/
def obsSkip (env : Env) (s : WState) : Bool × WState :=
  let s := absorb env s
  (s.skip, emit { s with skip := false } (.checkSkip s.skip))

/-- The worker's `stop_event.is_set()` check (never cleared). -/
def obsStop (env : Env) (s : WState) : Bool × WState :=
  let s := absorb env s
  (s.stop, emit s (.checkStop s.stop))

/-- `self.ser.read_holding(reg, unit=unitId)`. -/
def busRead (env : Env) (s : WState) (reg unitId : Nat) : MbRes × WState :=
  let s := absorb env s
  (env.resp s.tick, emit s (.readReg reg unitId (env.resp s.tick)))

/-- `self.ser.write_single(reg, value, unit=unitId)`. -/
def busWrite (env : Env) (s : WState) (reg value unitId : Nat) : MbRes × WState :=
  let s := absorb env s
  (env.resp s.tick, emit s (.writeReg reg value unitId (env.resp s.tick)))

/-- `time.sleep` of `ms` milliseconds: advances the model clock. -/
def doSleep (env : Env) (s : WState) (ms : Nat) : WState :=
  let s := absorb env s
  emit { s with clock := s.clock + ms } (.sleepMs ms)

/-- `self.ws[f"E..."] = serial`: the per-row persistence record. -/
def recordCell (env : Env) (s : WState) (row serial : Nat) : WState :=
  emit (absorb env s) (.cellWrite row serial)

/-- `item["status_cb"](ok)`: the terminal status callback for one task. -/
def reportStatus (env : Env) (s : WState) (row : Nat) (ok : Bool) : WState :=
  emit (absorb env s) (.statusCb row ok)

/-- `self.wb.save(self.wb.filename)`: returns whether the save succeeded;
a failed save raises in the source (it is not wrapped in try/except). -/
def doSave (env : Env) (s : WState) : Bool × WState :=
  let s := absorb env s
  (!env.saveFails s.tick, emit s (.saveWb (!env.saveFails s.tick)))

/-- Tuning constant BOOT_WAIT = 0.5 s, in ms. -/
def BOOT_WAIT : Nat := 500

/-- Tuning constant POLL_STEP = 0.25 s, in ms. -/
def POLL_STEP : Nat := 250

/-- Tuning constant POLL_MAX = 3.0 s, in ms. -/
def POLL_MAX : Nat := 3000

/-- POLL_ROUNDS = int(POLL_MAX / POLL_STEP). -/
def POLL_ROUNDS : Nat := POLL_MAX / POLL_STEP

/-- Python `v & ~(1 << 9)` on a nonnegative integer: clear bit 9, keep all
other bits. -/
def clearBit9 (v : Nat) : Nat := v - (if v.testBit 9 then 512 else 0)

/-- Lines 103-107 of sensor_worker.py: the optional buzzer-disable step.
Read register 255; an error response raises RuntimeError (caught by the
caller, hence step failure) and a raised exception likewise fails the step.
The write-back's response object is discarded without an `isError()` check,
so only a raised exception on the write can fail the step. Returns
(step succeeded, state). -/
def buzzerStep (env : Env) (s : WState) : Bool × WState :=
  let (r, s) := busRead env s 255 1
  match r with
  | .err => (false, s)
  | .exn => (false, s)
  | .ok v =>
    let (w, s) := busWrite env s 255 (clearBit9 v) 1
    match w with
    | .exn => (false, s)
    | _ => (true, s)

/-- Exit cause of the verification poll loop of `_configure`. -/
inductive VOut where
  | found
  | skipped
  | timeout
  | exnFail
deriving DecidableEq, Repr

/-- Lines 117-126 of sensor_worker.py: `deadline = time.time() + POLL_MAX;
while time.time() < deadline: ...`.  The loop is guarded by the model clock
against the given deadline; the structural `fuel` argument only makes the
recursion well-founded and never binds for the fuel the caller supplies
(each non-exiting iteration advances the clock by POLL_STEP). -/
def verifyLoop (env : Env) (newAddr deadline : Nat) : Nat → WState → VOut × WState
  | 0, s => (.timeout, s)
  | fuel + 1, s =>
    if s.clock < deadline then
      let (sk, s) := obsSkip env s
      if sk then (.skipped, s)
      else
        let (r, s) := busRead env s 2 newAddr
        match r with
        | .ok _ => (.found, s)
        | .err => verifyLoop env newAddr deadline fuel (doSleep env s POLL_STEP)
        | .exn => (.exnFail, s)
    else (.timeout, s)

/-- Lines 113-132 of sensor_worker.py, the tail of `_configure` after the
reboot command was written: fixed boot pause, verification poll at the new
address, and the worksheet cell write on success.  `serial` is the value
returned by the serial-register read at the start of `_configure`. -/
def afterReboot (env : Env) (row newAddr serial : Nat) (s : WState) :
    (Bool × Option Nat) × WState :=
  let s := doSleep env s BOOT_WAIT
  match verifyLoop env newAddr (s.clock + POLL_MAX) (POLL_ROUNDS + 1) s with
  | (.found, s) =>
    let s := recordCell env s row serial
    ((true, some serial), s)
  | (.skipped, s) => ((false, none), s)
  | (.timeout, s) => ((false, none), s)
  | (.exnFail, s) => ((false, none), s)

/-- Lines 109-132 of sensor_worker.py: write the soft-restart command 42330
to register 17 (an error response or an exception fails the task), then run
the boot pause / verification / cell write tail. -/
def rebootAndVerify (env : Env) (row newAddr serial : Nat) (s : WState) :
    (Bool × Option Nat) × WState :=
  let (w2, s) := busWrite env s 17 42330 1
  match w2 with
  | .err => ((false, none), s)
  | .exn => ((false, none), s)
  | .ok _ => afterReboot env row newAddr serial s

/-- SensorWorker._configure (lines 83-136 of sensor_worker.py).  Returns the
`(bool, serial-or-None)` pair of the source together with the final state.
Every raised exception inside the `try` block is caught by the trailing
`except` and yields `(False, None)`. -/
def configure (env : Env) (row newAddr : Nat) (buzzer : Bool) (s : WState) :
    (Bool × Option Nat) × WState :=
  let (sk, s) := obsSkip env s
  if sk then ((false, none), s)
  else
    let (r1, s) := busRead env s 3 1
    match r1 with
    | .err => ((false, none), s)
    | .exn => ((false, none), s)
    | .ok serial =>
      let (w1, s) := busWrite env s 4 newAddr 1
      match w1 with
      | .err => ((false, none), s)
      | .exn => ((false, none), s)
      | .ok _ =>
        if buzzer then
          match buzzerStep env s with
          | (false, s) => ((false, none), s)
          | (true, s) => rebootAndVerify env row newAddr serial s
        else rebootAndVerify env row newAddr serial s

/-- SensorWorker._wait_for_addr1 (lines 62-80 of sensor_worker.py): poll the
serial register at the probe address once per second until a serial not in
`prev_serials` answers, or skip/stop fires.  `some true` = new device found,
`some false` = the source's `return False` (skip observed, or stop set),
`none` = model fuel exhausted while still polling. -/
def waitForAddr1 (env : Env) : Nat → WState → Option Bool × WState
  | 0, s => (none, s)
  | fuel + 1, s =>
    let (st, s) := obsStop env s
    if st then (some false, s)
    else
      let (sk, s) := obsSkip env s
      if sk then (some false, s)
      else
        let (r, s) := busRead env s 3 1
        match r with
        | .ok serial =>
          if serial ∈ s.seen then waitForAddr1 env fuel (doSleep env s 1000)
          else (some true, s)
        | .err => waitForAddr1 env fuel (doSleep env s 1000)
        | .exn => waitForAddr1 env fuel (doSleep env s 1000)

/-- One provisioning task (one entry of `rows`): row reference, target
address, buzzer-disable policy, enabled flag. -/
structure Item where
  row : Nat
  newAddr : Nat
  buzzer : Bool
  enabled : Bool
deriving DecidableEq, Repr

/-- SensorWorker.run (lines 37-59 of sensor_worker.py).  The returned Bool is
true when the run was aborted by an uncaught exception from `wb.save`
(line 57 is not inside any try/except, so a save failure propagates out of
`run`). -/
def runLoop (env : Env) (fuel : Nat) : List Item → WState → WState × Bool
  | [], s => (s, false)
  | i :: rest, s =>
    if i.enabled then
      let (st, s) := obsStop env s
      if st then (s, false)
      else
        match waitForAddr1 env fuel s with
        | (some true, s) =>
          let (res, s) := configure env i.row i.newAddr i.buzzer s
          let s := reportStatus env s i.row res.1
          match res with
          | (true, some serial) =>
            if serial = 0 then runLoop env fuel rest s
            else
              let s := { s with seen := serial :: s.seen }
              let (saveOk, s) := doSave env s
              if saveOk then runLoop env fuel rest s else (s, true)
          | _ => runLoop env fuel rest s
        | (some false, s) => (s, false)
        | (none, s) => (s, false)
    else runLoop env fuel rest s

/-- Fresh state at worker start: empty registry, empty trace. -/
def initState : WState := ⟨0, 0, false, false, [], []⟩

/-- A whole run of SensorWorker.run from a fresh state. -/
def run (env : Env) (fuel : Nat) (items : List Item) : WState × Bool :=
  runLoop env fuel items initState

/-! ### SerialManager (serial_manager.py) -/

/-- Behavior of one attempt inside SerialManager._call: the underlying
pymodbus call returns a response object (whose `isError()` is the Bool), or
raises a communication-layer ModbusIOException (this also covers the
`if not self.is_open: raise ModbusIOException(...)` guard, which the same
handler catches), or raises any other exception. -/
inductive CallRes where
  | res (isErr : Bool)
  | commErr
  | otherErr
deriving DecidableEq, Repr

/-- Observable actions of SerialManager._call. -/
inductive TAct where
  | attemptCall (n : Nat)
  | closeHandle
  | backoffSleep (ms : Nat)
deriving DecidableEq, Repr

/-- How SerialManager._call returns to its caller: a response object
(possibly a device error response), a ModbusIOException surfaced after the
retry was exhausted (the `TransportError` of the spec), or a non-communication
exception propagated as-is. -/
inductive TOut where
  | success (isErr : Bool)
  | raisedComm
  | raisedOther
deriving DecidableEq, Repr

/-- The `for attempt in (1, 2)` loop of SerialManager._call (lines 228-246 of
serial_manager.py): on a ModbusIOException the handle is closed, a 200 ms
backoff is slept, and the loop continues with the next attempt; any other
exception propagates immediately; falling out of the loop raises the final
ModbusIOException. -/
def callLoop (outcome : Nat → CallRes) : List Nat → TOut × List TAct
  | [] => (.raisedComm, [])
  | a :: rest =>
    match outcome a with
    | .res e => (.success e, [.attemptCall a])
    | .otherErr => (.raisedOther, [.attemptCall a])
    | .commErr =>
      let (out, tr) := callLoop outcome rest
      (out, .attemptCall a :: .closeHandle :: .backoffSleep 200 :: tr)

/-- SerialManager._call with the source's attempt list `(1, 2)`. -/
def callModel (outcome : Nat → CallRes) : TOut × List TAct :=
  callLoop outcome [1, 2]

/-- SerialManager connection state: whether `self._client` is not None. -/
structure Mgr where
  clientPresent : Bool
deriving DecidableEq, Repr

/-- State after `SerialManager.__init__`: `self._client = None`. -/
def initMgr : Mgr := ⟨false⟩

/-- SerialManager.connect: on a failed or raising open, `self._client` is
reset to None; on success it is the fresh client. -/
def connectMgr (openOk : Bool) : Mgr := ⟨openOk⟩

/-- SerialManager.close: `self._client = None`. -/
def closeMgr : Mgr := ⟨false⟩

/-- Result of the public read_holding/write_single wrappers: either the
immediate AttributeError from evaluating `self._client.read_holding_registers`
while `self._client` is None (raised before `_call` even starts, so no
attempt, close or backoff happens), or whatever `_call` produces. -/
inductive PubOut where
  | attrError
  | viaCall (out : TOut) (acts : List TAct)
deriving DecidableEq, Repr

/-- SerialManager.read_holding (lines 222-223 of serial_manager.py):
`return self._call(self._client.read_holding_registers, addr, ...)`.
Python evaluates the bound-method argument first, so an absent client raises
AttributeError before `_call` runs. -/
def read_holding (m : Mgr) (outcome : Nat → CallRes) : PubOut :=
  if m.clientPresent then
    .viaCall (callModel outcome).1 (callModel outcome).2
  else .attrError

/-! ### Trace extractors -/

/-- The `(row, ok)` pairs of all status-callback events, in order. -/
def statusEvents (tr : List Event) : List (Nat × Bool) :=
  tr.filterMap fun e =>
    match e with
    | .statusCb r b => some (r, b)
    | _ => none

/-- The `(row, serial)` pairs of all worksheet cell writes, in order. -/
def cellEvents (tr : List Event) : List (Nat × Nat) :=
  tr.filterMap fun e =>
    match e with
    | .cellWrite r v => some (r, v)
    | _ => none

/-- Rows of all worksheet cell writes, in order. -/
def cellRowsOnly (tr : List Event) : List Nat :=
  tr.filterMap fun e =>
    match e with
    | .cellWrite r _ => some r
    | _ => none

/-- Rows whose status callback reported success (`Ok`), in order. -/
def okRows (tr : List Event) : List Nat :=
  tr.filterMap fun e =>
    match e with
    | .statusCb r true => some r
    | _ => none

/-- All register-write events `(reg, value, unitId, result)`, in order. -/
def writeEvents (tr : List Event) : List (Nat × Nat × Nat × MbRes) :=
  tr.filterMap fun e =>
    match e with
    | .writeReg r v u res => some (r, v, u, res)
    | _ => none

/-- Outcomes of all workbook-save attempts, in order. -/
def saveEvents (tr : List Event) : List Bool :=
  tr.filterMap fun e =>
    match e with
    | .saveWb b => some b
    | _ => none

/-- Number of register reads in a trace. -/
def readCount (tr : List Event) : Nat :=
  (tr.filterMap fun e =>
    match e with
    | .readReg r u res => some (r, u, res)
    | _ => none).length

/-- Number of attempted underlying calls in a SerialManager._call action
list. -/
def attemptCount (acts : List TAct) : Nat :=
  (acts.filterMap fun a =>
    match a with
    | .attemptCall n => some n
    | _ => none).length

/-! ### Basic lemmas about the primitives and the extractors -/

@[simp] theorem absorb_tick (env : Env) (s : WState) : (absorb env s).tick = s.tick := rfl

@[simp] theorem absorb_clock (env : Env) (s : WState) : (absorb env s).clock = s.clock := rfl

@[simp] theorem absorb_trace (env : Env) (s : WState) : (absorb env s).trace = s.trace := rfl

@[simp] theorem absorb_seen (env : Env) (s : WState) : (absorb env s).seen = s.seen := rfl

@[simp] theorem emit_tick (s : WState) (e : Event) : (emit s e).tick = s.tick + 1 := rfl

@[simp] theorem emit_clock (s : WState) (e : Event) : (emit s e).clock = s.clock := rfl

@[simp] theorem emit_trace (s : WState) (e : Event) : (emit s e).trace = s.trace ++ [e] := rfl

@[simp] theorem emit_seen (s : WState) (e : Event) : (emit s e).seen = s.seen := rfl

@[simp] theorem statusEvents_append (a b : List Event) :
    statusEvents (a ++ b) = statusEvents a ++ statusEvents b :=
  List.filterMap_append a b _

@[simp] theorem cellEvents_append (a b : List Event) :
    cellEvents (a ++ b) = cellEvents a ++ cellEvents b :=
  List.filterMap_append a b _

@[simp] theorem cellRowsOnly_append (a b : List Event) :
    cellRowsOnly (a ++ b) = cellRowsOnly a ++ cellRowsOnly b :=
  List.filterMap_append a b _

@[simp] theorem okRows_append (a b : List Event) :
    okRows (a ++ b) = okRows a ++ okRows b :=
  List.filterMap_append a b _

@[simp] theorem writeEvents_append (a b : List Event) :
    writeEvents (a ++ b) = writeEvents a ++ writeEvents b :=
  List.filterMap_append a b _

@[simp] theorem saveEvents_append (a b : List Event) :
    saveEvents (a ++ b) = saveEvents a ++ saveEvents b :=
  List.filterMap_append a b _

@[simp] theorem statusEvents_nil : statusEvents [] = [] := rfl

@[simp] theorem cellEvents_nil : cellEvents [] = [] := rfl

@[simp] theorem cellRowsOnly_nil : cellRowsOnly [] = [] := rfl

@[simp] theorem okRows_nil : okRows [] = [] := rfl

@[simp] theorem writeEvents_nil : writeEvents [] = [] := rfl

@[simp] theorem saveEvents_nil : saveEvents [] = [] := rfl

@[simp] theorem statusEvents_cons (e : Event) (t : List Event) :
    statusEvents (e :: t) =
      (match e with | .statusCb r b => [(r, b)] | _ => []) ++ statusEvents t := by
  cases e <;> simp [statusEvents]

@[simp] theorem cellEvents_cons (e : Event) (t : List Event) :
    cellEvents (e :: t) =
      (match e with | .cellWrite r v => [(r, v)] | _ => []) ++ cellEvents t := by
  cases e <;> simp [cellEvents]

@[simp] theorem cellRowsOnly_cons (e : Event) (t : List Event) :
    cellRowsOnly (e :: t) =
      (match e with | .cellWrite r _ => [r] | _ => []) ++ cellRowsOnly t := by
  cases e <;> simp [cellRowsOnly]

@[simp] theorem okRows_cons (e : Event) (t : List Event) :
    okRows (e :: t) =
      (match e with | .statusCb r true => [r] | _ => []) ++ okRows t := by
  cases e with
  | statusCb r b => cases b <;> simp [okRows]
  | _ => simp [okRows]

@[simp] theorem writeEvents_cons (e : Event) (t : List Event) :
    writeEvents (e :: t) =
      (match e with | .writeReg r v u res => [(r, v, u, res)] | _ => []) ++ writeEvents t := by
  cases e <;> simp [writeEvents]

@[simp] theorem saveEvents_cons (e : Event) (t : List Event) :
    saveEvents (e :: t) =
      (match e with | .saveWb b => [b] | _ => []) ++ saveEvents t := by
  cases e <;> simp [saveEvents]

@[simp] theorem readCount_append (a b : List Event) :
    readCount (a ++ b) = readCount a + readCount b := by
  simp [readCount, List.filterMap_append]

@[simp] theorem readCount_nil : readCount [] = 0 := rfl

@[simp] theorem readCount_cons (e : Event) (t : List Event) :
    readCount (e :: t) =
      (match e with | .readReg _ _ _ => 1 | _ => 0) + readCount t := by
  cases e <;> simp [readCount] <;> omega

/-! ### Frame lemmas: what each phase can and cannot add to the trace -/

/-- Discovery adds no cell writes, no status callbacks, no register writes and
no workbook saves to the trace, and leaves the seen-serial registry
unchanged. -/
theorem waitForAddr1_frame (env : Env) (fuel : Nat) (s : WState) :
    cellEvents (waitForAddr1 env fuel s).2.trace = cellEvents s.trace
  ∧ statusEvents (waitForAddr1 env fuel s).2.trace = statusEvents s.trace
  ∧ writeEvents (waitForAddr1 env fuel s).2.trace = writeEvents s.trace
  ∧ saveEvents (waitForAddr1 env fuel s).2.trace = saveEvents s.trace
  ∧ (waitForAddr1 env fuel s).2.seen = s.seen := by
  induction fuel generalizing s with
  | zero => simp [waitForAddr1]
  | succ n ih =>
    simp only [waitForAddr1, obsStop, obsSkip, busRead, absorb, emit]
    split
    · simp
    · split
      · simp
      · rcases h : env.resp (s.tick + 2) with v | _ | _ <;> simp only [h]
        · split
          · simp [ih, doSleep, absorb, emit]
          · simp
        · simp [ih, doSleep, absorb, emit]
        · simp [ih, doSleep, absorb, emit]

/-- When discovery reports a new device, the last event of its trace is a
successful read of the serial register at the probe address whose returned
serial is not in the seen-serial registry. -/
theorem waitForAddr1_found (env : Env) (fuel : Nat) (s : WState) :
    (waitForAddr1 env fuel s).1 = some true →
    ∃ v, (waitForAddr1 env fuel s).2.trace.getLast? = some (.readReg 3 1 (.ok v))
      ∧ v ∉ s.seen := by
  induction fuel generalizing s with
  | zero => simp [waitForAddr1]
  | succ n ih =>
    simp only [waitForAddr1, obsStop, obsSkip, busRead, absorb, emit]
    split
    · simp
    · split
      · simp
      · rcases h : env.resp (s.tick + 2) with v | _ | _ <;> simp only [h]
        · split
          · intro hf
            obtain ⟨w, hd, hw⟩ := ih _ hf
            exact ⟨w, hd, by simpa [doSleep, absorb, emit] using hw⟩
          · intro _
            refine ⟨v, ?_, by simp_all⟩
            simp
        · intro hf
          obtain ⟨w, hd, hw⟩ := ih _ hf
          exact ⟨w, hd, by simpa [doSleep, absorb, emit] using hw⟩
        · intro hf
          obtain ⟨w, hd, hw⟩ := ih _ hf
          exact ⟨w, hd, by simpa [doSleep, absorb, emit] using hw⟩

/-- The second trace extends the first by some suffix of events.  Every
phase of the worker only appends to the trace. -/
def TraceExt (a b : List Event) : Prop := ∃ d, b = a ++ d

theorem traceExt_rfl (a : List Event) : TraceExt a a := ⟨[], by simp⟩

theorem traceExt_trans (a b c : List Event) :
    TraceExt a b → TraceExt b c → TraceExt a c := by
  rintro ⟨d1, rfl⟩ ⟨d2, rfl⟩
  exact ⟨d1 ++ d2, by simp⟩

theorem traceExt_push (a b : List Event) (e : Event) :
    TraceExt a b → TraceExt a (b ++ [e]) := by
  rintro ⟨d, rfl⟩
  exact ⟨d ++ [e], by simp⟩

/-- The verification poll only appends to the trace, adds no cell writes,
status callbacks, register writes or saves, leaves the registry unchanged,
and when it exits with success its last event is a successful liveness read
at the new address. -/
theorem verifyLoop_frame (env : Env) (newAddr deadline : Nat) (fuel : Nat) (s : WState) :
    cellEvents (verifyLoop env newAddr deadline fuel s).2.trace = cellEvents s.trace
  ∧ statusEvents (verifyLoop env newAddr deadline fuel s).2.trace = statusEvents s.trace
  ∧ writeEvents (verifyLoop env newAddr deadline fuel s).2.trace = writeEvents s.trace
  ∧ saveEvents (verifyLoop env newAddr deadline fuel s).2.trace = saveEvents s.trace
  ∧ (verifyLoop env newAddr deadline fuel s).2.seen = s.seen
  ∧ TraceExt s.trace (verifyLoop env newAddr deadline fuel s).2.trace
  ∧ ((verifyLoop env newAddr deadline fuel s).1 = .found →
      ∃ w, (verifyLoop env newAddr deadline fuel s).2.trace.getLast? =
        some (.readReg 2 newAddr (.ok w))) := by
  induction fuel generalizing s with
  | zero => simp [verifyLoop, traceExt_rfl]
  | succ n ih =>
    simp only [verifyLoop, obsSkip, busRead, absorb, emit]
    split
    · split
      · exact ⟨by simp, by simp, by simp, by simp, by simp,
          traceExt_push _ _ _ (traceExt_rfl _), by simp⟩
      · rcases h : env.resp (s.tick + 1) with v | _ | _ <;> simp only [h]
        · refine ⟨by simp, by simp, by simp, by simp, by simp,
            traceExt_push _ _ _ (traceExt_push _ _ _ (traceExt_rfl _)), ?_⟩
          intro _
          exact ⟨v, by simp⟩
        · refine ⟨?_, ?_, ?_, ?_, ?_, ?_, fun hf => (ih _).2.2.2.2.2.2 hf⟩
          case refine_6 =>
            refine traceExt_trans _ _ _ ?_ ((ih _).2.2.2.2.2.1)
            exact traceExt_push _ _ _ (traceExt_push _ _ _ (traceExt_push _ _ _ (traceExt_rfl _)))
          all_goals simp [ih, doSleep, absorb, emit]
        · exact ⟨by simp, by simp, by simp, by simp, by simp,
            traceExt_push _ _ _ (traceExt_push _ _ _ (traceExt_rfl _)), by simp⟩
    · exact ⟨rfl, rfl, rfl, rfl, rfl, traceExt_rfl _, by simp⟩

/-- When the operator never sets skip and every liveness read returns an
error response, the verification poll times out; its final clock stays under
`deadline + POLL_STEP` (so the elapsed wait exceeds the timeout window by
less than one poll interval), and it issues at most `fuel` reads. -/
theorem verifyLoop_timeout (env : Env) (newAddr deadline fuel : Nat) (s : WState)
    (hresp : ∀ t, env.resp t = .err)
    (hskip : ∀ t, env.skipSetAt t = false)
    (hs : s.skip = false)
    (hcl : s.clock < deadline + POLL_STEP) :
    (verifyLoop env newAddr deadline fuel s).1 = .timeout
  ∧ (verifyLoop env newAddr deadline fuel s).2.clock < deadline + POLL_STEP
  ∧ readCount (verifyLoop env newAddr deadline fuel s).2.trace ≤ readCount s.trace + fuel := by
  induction fuel generalizing s with
  | zero => exact ⟨rfl, hcl, Nat.le_add_right _ _⟩
  | succ n ih =>
    simp only [verifyLoop, obsSkip, busRead, absorb, emit, hs, hskip, hresp]
    split
    · rename_i hguard
      refine ⟨(ih _ ?_ ?_).1, ?_, ?_⟩
      · simp [doSleep, absorb, emit, hskip]
      · simp [doSleep, absorb, emit]
        omega
      · simp only [Bool.or_self, Bool.false_eq_true, if_false]
        refine (ih _ ?_ ?_).2.1
        · simp [doSleep, absorb, emit, hskip]
        · simp [doSleep, absorb, emit]
          omega
      · simp only [Bool.or_self, Bool.false_eq_true, if_false]
        refine le_trans ((ih _ ?_ ?_).2.2) ?_
        · simp [doSleep, absorb, emit, hskip]
        · simp [doSleep, absorb, emit]
          omega
        · simp [doSleep, absorb, emit]
          omega
    · exact ⟨rfl, hcl, Nat.le_add_right _ _⟩

/-- The buzzer step only appends read/write events on register 255: no cell
writes, status callbacks or saves, and the registry is unchanged. -/
theorem buzzerStep_frame (env : Env) (s sb : WState) (bz : Bool)
    (h : buzzerStep env s = (bz, sb)) :
    cellEvents sb.trace = cellEvents s.trace
  ∧ statusEvents sb.trace = statusEvents s.trace
  ∧ saveEvents sb.trace = saveEvents s.trace
  ∧ sb.seen = s.seen
  ∧ TraceExt s.trace sb.trace := by
  revert h
  simp only [buzzerStep, busRead, busWrite, absorb, emit]
  rcases h1 : env.resp s.tick with v | _ | _ <;> simp only [h1]
  · rcases h2 : env.resp (s.tick + 1) with w | _ | _ <;> simp only [h2] <;>
      (intro h; cases h) <;>
      exact ⟨by simp, by simp, by simp, by simp,
        traceExt_push _ _ _ (traceExt_push _ _ _ (traceExt_rfl _))⟩
  · intro h; cases h
    exact ⟨by simp, by simp, by simp, by simp,
      traceExt_push _ _ _ (traceExt_rfl _)⟩
  · intro h; cases h
    exact ⟨by simp, by simp, by simp, by simp,
      traceExt_push _ _ _ (traceExt_rfl _)⟩

/-- The boot pause, verification poll and success cell write: seen registry
unchanged, no status callbacks or saves; exactly one cell write occurs, and
only on the success path, where it is the final event, immediately preceded
by a successful liveness read at the new address. -/
theorem afterReboot_frame (env : Env) (row newAddr serial : Nat) (s : WState)
    (res : Bool × Option Nat) (s2 : WState)
    (h : afterReboot env row newAddr serial s = (res, s2)) :
    s2.seen = s.seen
  ∧ statusEvents s2.trace = statusEvents s.trace
  ∧ saveEvents s2.trace = saveEvents s.trace
  ∧ TraceExt s.trace s2.trace
  ∧ (res.1 = false → res = (false, none) ∧ cellEvents s2.trace = cellEvents s.trace)
  ∧ (res.1 = true → res = (true, some serial)
      ∧ cellEvents s2.trace = cellEvents s.trace ++ [(row, serial)]
      ∧ s2.trace.getLast? = some (.cellWrite row serial)
      ∧ ∃ w, s2.trace.dropLast.getLast? = some (.readReg 2 newAddr (.ok w))) := by
  have hfr := verifyLoop_frame env newAddr
    ((doSleep env s BOOT_WAIT).clock + POLL_MAX) (POLL_ROUNDS + 1)
    (doSleep env s BOOT_WAIT)
  revert h
  simp only [afterReboot]
  rcases hv : verifyLoop env newAddr ((doSleep env s BOOT_WAIT).clock + POLL_MAX)
      (POLL_ROUNDS + 1) (doSleep env s BOOT_WAIT) with ⟨vout, sv⟩
  rw [hv] at hfr
  dsimp only at hfr
  obtain ⟨f1, f2, f3, f4, f5, f6, f7⟩ := hfr
  have hsl1 : cellEvents (doSleep env s BOOT_WAIT).trace = cellEvents s.trace := by
    simp [doSleep, absorb, emit]
  have hsl2 : statusEvents (doSleep env s BOOT_WAIT).trace = statusEvents s.trace := by
    simp [doSleep, absorb, emit]
  have hsl4 : saveEvents (doSleep env s BOOT_WAIT).trace = saveEvents s.trace := by
    simp [doSleep, absorb, emit]
  have hsl5 : (doSleep env s BOOT_WAIT).seen = s.seen := by
    simp [doSleep, absorb, emit]
  have hsl6 : TraceExt s.trace (doSleep env s BOOT_WAIT).trace :=
    traceExt_push _ _ _ (traceExt_rfl _)
  cases vout <;> intro h <;> cases h
  · refine ⟨?_, ?_, ?_, ?_, by simp, ?_⟩
    · simp [recordCell, absorb, emit, f5, hsl5]
    · simp [recordCell, absorb, emit, f2, hsl2]
    · simp [recordCell, absorb, emit, f4, hsl4]
    · exact traceExt_trans _ _ _ (traceExt_trans _ _ _ hsl6 f6)
        (traceExt_push _ _ _ (traceExt_rfl _))
    · intro _
      refine ⟨rfl, ?_, ?_, ?_⟩
      · simp [recordCell, absorb, emit, f1, hsl1]
      · simp [recordCell, absorb, emit]
      · obtain ⟨w, hw⟩ := f7 rfl
        refine ⟨w, ?_⟩
        have hrc : (recordCell env sv row serial).trace
            = sv.trace ++ [.cellWrite row serial] := by
          simp [recordCell, absorb, emit]
        rw [hrc, List.dropLast_concat]
        exact hw
  · exact ⟨by rw [f5, hsl5], by rw [f2, hsl2], by rw [f4, hsl4],
      traceExt_trans _ _ _ hsl6 f6,
      fun _ => ⟨rfl, by rw [f1, hsl1]⟩, by simp⟩
  · exact ⟨by rw [f5, hsl5], by rw [f2, hsl2], by rw [f4, hsl4],
      traceExt_trans _ _ _ hsl6 f6,
      fun _ => ⟨rfl, by rw [f1, hsl1]⟩, by simp⟩
  · exact ⟨by rw [f5, hsl5], by rw [f2, hsl2], by rw [f4, hsl4],
      traceExt_trans _ _ _ hsl6 f6,
      fun _ => ⟨rfl, by rw [f1, hsl1]⟩, by simp⟩


/-- The reboot write and verification tail: registry untouched, no status
callbacks or saves; success records exactly one cell as its final action,
immediately after the successful verification read. -/
theorem rebootAndVerify_frame (env : Env) (row newAddr serial : Nat) (s : WState)
    (res : Bool × Option Nat) (s2 : WState)
    (h : rebootAndVerify env row newAddr serial s = (res, s2)) :
    s2.seen = s.seen
  ∧ statusEvents s2.trace = statusEvents s.trace
  ∧ saveEvents s2.trace = saveEvents s.trace
  ∧ (res.1 = false → cellEvents s2.trace = cellEvents s.trace)
  ∧ (res.1 = true → res = (true, some serial)
      ∧ cellEvents s2.trace = cellEvents s.trace ++ [(row, serial)]
      ∧ s2.trace.getLast? = some (.cellWrite row serial)
      ∧ (∃ w, s2.trace.dropLast.getLast? = some (.readReg 2 newAddr (.ok w)))
      ∧ TraceExt s.trace s2.trace) := by
  revert h
  simp only [rebootAndVerify, busWrite, absorb, emit]
  rcases h17 : env.resp s.tick with u | _ | _ <;> simp only [h17]
  · intro h
    obtain ⟨a1, a2, a3, a4, a5, a6⟩ := afterReboot_frame _ _ _ _ _ _ _ h
    refine ⟨by simp_all, by simp_all, by simp_all, ?_, ?_⟩
    · intro hf
      rw [(a5 hf).2]
      simp
    · intro ht
      obtain ⟨hres, hcell, hlast, hprev⟩ := a6 ht
      refine ⟨hres, by rw [hcell]; simp, hlast, hprev, ?_⟩
      exact traceExt_trans _ _ _ (traceExt_push _ _ _ (traceExt_rfl _)) a4
  · intro h; cases h
    exact ⟨by simp, by simp, by simp, fun _ => by simp, by simp⟩
  · intro h; cases h
    exact ⟨by simp, by simp, by simp, fun _ => by simp, by simp⟩

/-- SensorWorker._configure: the registry is untouched, no status callbacks
or saves happen inside it, a failing outcome writes no worksheet cell, and a
successful outcome `(True, serial)` writes exactly one cell `(row, serial)`
as its final action, immediately after the successful verification read; the
serial it records is the one returned by the serial-register read performed
as the first bus operation of the configuration. -/
theorem configure_frame (env : Env) (row newAddr : Nat) (buzzer : Bool) (s : WState)
    (res : Bool × Option Nat) (s2 : WState)
    (h : configure env row newAddr buzzer s = (res, s2)) :
    s2.seen = s.seen
  ∧ statusEvents s2.trace = statusEvents s.trace
  ∧ saveEvents s2.trace = saveEvents s.trace
  ∧ (res.1 = false → cellEvents s2.trace = cellEvents s.trace)
  ∧ (res.1 = true → ∃ v, res = (true, some v)
      ∧ cellEvents s2.trace = cellEvents s.trace ++ [(row, v)]
      ∧ s2.trace.getLast? = some (.cellWrite row v)
      ∧ (∃ w, s2.trace.dropLast.getLast? = some (.readReg 2 newAddr (.ok w)))
      ∧ TraceExt (s.trace ++ [.checkSkip false, .readReg 3 1 (.ok v)]) s2.trace) := by
  revert h
  simp only [configure, obsSkip, busRead, busWrite, absorb, emit]
  split
  · intro h; cases h
    exact ⟨by simp, by simp, by simp, fun _ => by simp, by simp⟩
  · rename_i hsk
    rw [Bool.not_eq_true] at hsk
    simp only [hsk]
    rcases h3 : env.resp (s.tick + 1) with v | _ | _ <;> simp only [h3]
    · rcases h4 : env.resp (s.tick + 2) with w4 | _ | _ <;> simp only [h4]
      · cases buzzer
        · simp only [Bool.false_eq_true, if_false]
          intro h
          obtain ⟨a1, a2, a3, a4, a5⟩ := rebootAndVerify_frame _ _ _ _ _ _ _ h
          refine ⟨by simp_all, by simp_all, by simp_all, ?_, ?_⟩
          · intro hf
            rw [a4 hf]
            simp
          · intro ht
            obtain ⟨hres, hcell, hlast, hprev, hext⟩ := a5 ht
            refine ⟨v, hres, by rw [hcell]; simp, hlast, hprev, ?_⟩
            refine traceExt_trans _ _ _ ?_ hext
            refine traceExt_push _ _ _ ⟨[], by simp⟩
        · simp only [if_true]
          split
          · rename_i sb hb
            intro h; cases h
            obtain ⟨b1, b2, b3, b4, b5⟩ := buzzerStep_frame _ _ _ _ hb
            exact ⟨by simp_all, by simp_all, by simp_all,
              fun _ => by simp_all, by simp⟩
          · rename_i sb hb
            intro h
            obtain ⟨b1, b2, b3, b4, b5⟩ := buzzerStep_frame _ _ _ _ hb
            obtain ⟨a1, a2, a3, a4, a5⟩ := rebootAndVerify_frame _ _ _ _ _ _ _ h
            refine ⟨by simp_all, by simp_all, by simp_all, ?_, ?_⟩
            · intro hf
              rw [a4 hf]
              simp_all
            · intro ht
              obtain ⟨hres, hcell, hlast, hprev, hext⟩ := a5 ht
              refine ⟨v, hres, by rw [hcell]; simp_all, hlast, hprev, ?_⟩
              refine traceExt_trans _ _ _ ?_ hext
              refine traceExt_trans _ _ _ ?_ b5
              refine traceExt_push _ _ _ ⟨[], by simp⟩
      · intro h; cases h
        exact ⟨by simp, by simp, by simp, fun _ => by simp, by simp⟩
      · intro h; cases h
        exact ⟨by simp, by simp, by simp, fun _ => by simp, by simp⟩
    · intro h; cases h
      exact ⟨by simp, by simp, by simp, fun _ => by simp, by simp⟩
    · intro h; cases h
      exact ⟨by simp, by simp, by simp, fun _ => by simp, by simp⟩

/-- Rows of cell writes are the first components of the cell-write pairs. -/
theorem cellRowsOnly_eq (tr : List Event) :
    cellRowsOnly tr = (cellEvents tr).map Prod.fst := by
  induction tr with
  | nil => rfl
  | cons e t ih => cases e <;> simp [ih]

/-- Rows reported successful are recoverable from the status-event pairs. -/
theorem okRows_eq (tr : List Event) :
    okRows tr = (statusEvents tr).filterMap
      (fun p => if p.2 = true then some p.1 else none) := by
  induction tr with
  | nil => rfl
  | cons e t ih =>
    cases e with
    | statusCb r b => cases b <;> simp [ih]
    | _ => simp [ih]

/-- Equation form of the discovery frame lemma. -/
theorem waitForAddr1_frame_eq (env : Env) (fuel : Nat) (s s2 : WState) (ob : Option Bool)
    (h : waitForAddr1 env fuel s = (ob, s2)) :
    cellEvents s2.trace = cellEvents s.trace
  ∧ statusEvents s2.trace = statusEvents s.trace
  ∧ writeEvents s2.trace = writeEvents s.trace
  ∧ saveEvents s2.trace = saveEvents s.trace
  ∧ s2.seen = s.seen := by
  have hfr := waitForAddr1_frame env fuel s
  rw [h] at hfr
  exact hfr

/-- Throughout a run, the rows recorded by worksheet cell writes are exactly
the rows whose status callback reported success, in the same order. -/
theorem runLoop_cells_ok (env : Env) (fuel : Nat) (items : List Item) (s : WState)
    (hinv : cellRowsOnly s.trace = okRows s.trace) :
    cellRowsOnly (runLoop env fuel items s).1.trace
      = okRows (runLoop env fuel items s).1.trace := by
  induction items generalizing s with
  | nil => simpa [runLoop] using hinv
  | cons i rest ih =>
    simp only [runLoop]
    split
    · simp only [obsStop, absorb, emit]
      split
      · simpa using hinv
      · split
        · rename_i s2 hw
          rcases hc : configure env i.row i.newAddr i.buzzer s2 with ⟨⟨b, o⟩, s3⟩
          obtain ⟨hwc, hws, hww, hwsv, hwseen⟩ := waitForAddr1_frame_eq _ _ _ _ _ hw
          obtain ⟨c1, c2, c3, c4, c5⟩ := configure_frame _ _ _ _ _ _ _ hc
          simp only [hc]
          have hbase : cellRowsOnly s2.trace = okRows s2.trace := by
            rw [cellRowsOnly_eq, hwc, ← cellRowsOnly_eq, okRows_eq, hws, ← okRows_eq]
            simpa using hinv
          have ho3 : okRows s3.trace = okRows s2.trace := by
            rw [okRows_eq, c2, ← okRows_eq]
          cases b
          · have hcells : cellEvents s3.trace = cellEvents s2.trace := c4 rfl
            have hc3 : cellRowsOnly s3.trace = cellRowsOnly s2.trace := by
              rw [cellRowsOnly_eq, hcells, ← cellRowsOnly_eq]
            rcases o with _ | serial <;>
              (refine ih _ ?_
               simp only [reportStatus, absorb, emit]
               simp [hc3, ho3, hbase])
          · obtain ⟨v, hres, hcell, _, _, _⟩ := c5 rfl
            cases hres
            have hc3 : cellRowsOnly s3.trace = cellRowsOnly s2.trace ++ [i.row] := by
              rw [cellRowsOnly_eq, hcell]
              simp [cellRowsOnly_eq]
            simp only [reportStatus, absorb, emit]
            split
            · refine ih _ ?_
              simp [hc3, ho3, hbase]
            · simp only [doSave, absorb, emit]
              split
              · refine ih _ ?_
                simp [hc3, ho3, hbase]
              · simp [hc3, ho3, hbase]
        · rename_i s2 hw
          obtain ⟨hwc, hws, _, _, _⟩ := waitForAddr1_frame_eq _ _ _ _ _ hw
          simp only []
          rw [cellRowsOnly_eq, hwc, ← cellRowsOnly_eq, okRows_eq, hws, ← okRows_eq]
          simpa using hinv
        · rename_i s2 hw
          obtain ⟨hwc, hws, _, _, _⟩ := waitForAddr1_frame_eq _ _ _ _ _ hw
          simp only []
          rw [cellRowsOnly_eq, hwc, ← cellRowsOnly_eq, okRows_eq, hws, ← okRows_eq]
          simpa using hinv
    · exact ih _ hinv

/-- Throughout a run, every nonzero serial recorded by a worksheet cell write
is in the seen-serial registry of the resulting state: `prev_serials.add`
runs for every successfully configured nonzero serial, and nothing is ever
removed from the registry. -/
theorem runLoop_seen (env : Env) (fuel : Nat) (items : List Item) (s : WState)
    (hinv : ∀ r v, (r, v) ∈ cellEvents s.trace → v ≠ 0 → v ∈ s.seen) :
    ∀ r v, (r, v) ∈ cellEvents (runLoop env fuel items s).1.trace → v ≠ 0 →
      v ∈ (runLoop env fuel items s).1.seen := by
  induction items generalizing s with
  | nil => simpa [runLoop] using hinv
  | cons i rest ih =>
    simp only [runLoop]
    split
    · simp only [obsStop, absorb, emit]
      split
      · intro r v hmem hv
        simp only at hmem
        simp only [cellEvents_append, cellEvents_cons, cellEvents_nil] at hmem
        simp only [List.append_nil] at hmem
        exact hinv r v hmem hv
      · split
        · rename_i s2 hw
          rcases hc : configure env i.row i.newAddr i.buzzer s2 with ⟨⟨b, o⟩, s3⟩
          obtain ⟨hwc, hws, hww, hwsv, hwseen⟩ := waitForAddr1_frame_eq _ _ _ _ _ hw
          obtain ⟨c1, c2, c3, c4, c5⟩ := configure_frame _ _ _ _ _ _ _ hc
          simp only [hc]
          have hseen2 : s2.seen = s.seen := by simpa using hwseen
          have hcell2 : cellEvents s2.trace = cellEvents s.trace := by
            simpa using hwc
          have hbase : ∀ r v, (r, v) ∈ cellEvents s2.trace → v ≠ 0 → v ∈ s2.seen := by
            intro r v hm hv
            rw [hcell2] at hm
            rw [hseen2]
            exact hinv r v hm hv
          cases b
          · have hcells : cellEvents s3.trace = cellEvents s2.trace := c4 rfl
            rcases o with _ | serial <;>
              (refine ih _ ?_
               intro r v hmem hv
               simp only [reportStatus, absorb, emit] at hmem ⊢
               simp only [cellEvents_append, cellEvents_cons, cellEvents_nil,
                 List.append_nil] at hmem
               rw [hcells] at hmem
               rw [c1]
               exact hbase r v hmem hv)
          · obtain ⟨v, hres, hcell, _, _, _⟩ := c5 rfl
            cases hres
            simp only [reportStatus, absorb, emit]
            split
            · rename_i hv0
              refine ih _ ?_
              intro r w hmem hw
              simp only at hmem ⊢
              simp only [cellEvents_append, cellEvents_cons, cellEvents_nil,
                List.append_nil] at hmem
              rw [hcell] at hmem
              rcases List.mem_append.1 hmem with hold | hnew
              · rw [c1]
                exact hbase r w hold hw
              · exfalso
                simp only [List.mem_singleton, Prod.mk.injEq] at hnew
                exact hw (hnew.2.trans hv0)
            · rename_i hv0
              simp only [doSave, absorb, emit]
              split
              · refine ih _ ?_
                intro r w hmem hw
                simp only at hmem ⊢
                simp only [cellEvents_append, cellEvents_cons, cellEvents_nil,
                  List.append_nil] at hmem
                rw [hcell] at hmem
                rcases List.mem_append.1 hmem with hold | hnew
                · exact List.mem_cons_of_mem _ (by rw [c1]; exact hbase r w hold hw)
                · simp only [List.mem_singleton, Prod.mk.injEq] at hnew
                  rw [hnew.2]
                  exact List.mem_cons_self _ _
              · intro r w hmem hw
                simp only at hmem ⊢
                simp only [cellEvents_append, cellEvents_cons, cellEvents_nil,
                  List.append_nil] at hmem
                rw [hcell] at hmem
                rcases List.mem_append.1 hmem with hold | hnew
                · exact List.mem_cons_of_mem _ (by rw [c1]; exact hbase r w hold hw)
                · simp only [List.mem_singleton, Prod.mk.injEq] at hnew
                  rw [hnew.2]
                  exact List.mem_cons_self _ _
        · rename_i s2 hw
          obtain ⟨hwc, _, _, _, hwseen⟩ := waitForAddr1_frame_eq _ _ _ _ _ hw
          intro r v hmem hv
          simp only at hmem ⊢
          rw [show cellEvents s2.trace = cellEvents s.trace from by simpa using hwc] at hmem
          rw [show s2.seen = s.seen from by simpa using hwseen]
          exact hinv r v hmem hv
        · rename_i s2 hw
          obtain ⟨hwc, _, _, _, hwseen⟩ := waitForAddr1_frame_eq _ _ _ _ _ hw
          intro r v hmem hv
          simp only at hmem ⊢
          rw [show cellEvents s2.trace = cellEvents s.trace from by simpa using hwc] at hmem
          rw [show s2.seen = s.seen from by simpa using hwseen]
          exact hinv r v hmem hv
    · exact ih _ hinv

/-! ### Claim theorems -/

/-- C6: For every read or write operation on the Transport: a first-attempt
communication error leads to closing the handle, a fixed 200 ms backoff, and
exactly one retry; a communication failure of the retry is surfaced to the
caller as a transport error (ModbusIOException) with no third attempt; a
successful retry returns the response; a non-communication error propagates
immediately without any retry; in every case at most two underlying calls
are attempted. -/
theorem c6_call_retry (outcome : Nat → CallRes) :
    attemptCount (callModel outcome).2 ≤ 2
  ∧ (∀ e, outcome 1 = .res e → callModel outcome = (.success e, [.attemptCall 1]))
  ∧ (outcome 1 = .otherErr → callModel outcome = (.raisedOther, [.attemptCall 1]))
  ∧ (outcome 1 = .commErr → (callModel outcome).2.take 3
        = [.attemptCall 1, .closeHandle, .backoffSleep 200])
  ∧ (∀ e, outcome 1 = .commErr → outcome 2 = .res e →
      callModel outcome = (.success e,
        [.attemptCall 1, .closeHandle, .backoffSleep 200, .attemptCall 2]))
  ∧ (outcome 1 = .commErr → outcome 2 = .otherErr →
      callModel outcome = (.raisedOther,
        [.attemptCall 1, .closeHandle, .backoffSleep 200, .attemptCall 2]))
  ∧ (outcome 1 = .commErr → outcome 2 = .commErr →
      callModel outcome = (.raisedComm,
        [.attemptCall 1, .closeHandle, .backoffSleep 200, .attemptCall 2,
         .closeHandle, .backoffSleep 200])) := by
  rcases h1 : outcome 1 with e1 | _ | _ <;> rcases h2 : outcome 2 with e2 | _ | _ <;>
    simp [callModel, callLoop, attemptCount, h1, h2]

/-- C6 witness: both attempts fail with a communication error on a concrete
outcome stream; the call surfaces a transport error after exactly two
attempts, one 200 ms backoff between them. -/
theorem c6_call_retry_witness :
    callModel (fun _ => .commErr) = (.raisedComm,
      [.attemptCall 1, .closeHandle, .backoffSleep 200, .attemptCall 2,
       .closeHandle, .backoffSleep 200]) :=
  (c6_call_retry (fun _ => .commErr)).2.2.2.2.2.2 rfl rfl

/-- C10: invoking read_holding when no client handle exists (never connected,
or after close) raises immediately by evaluating the attribute on the absent
handle: the result is the AttributeError outcome, never a transport-error
result from `_call`, and no attempt, close or backoff action happens. -/
theorem c10_absent_client_raises (outcome : Nat → CallRes) (m : Mgr) :
    read_holding initMgr outcome = .attrError
  ∧ read_holding closeMgr outcome = .attrError
  ∧ (∀ o tr, read_holding initMgr outcome ≠ .viaCall o tr)
  ∧ (m.clientPresent = false → read_holding m outcome = .attrError) := by
  refine ⟨rfl, rfl, fun o tr => by simp [read_holding, initMgr], fun h => ?_⟩
  simp [read_holding, h]

/-- C10 witness: with every underlying call succeeding, a fresh manager still
raises AttributeError from read_holding because the client is absent. -/
theorem c10_absent_client_raises_witness :
    read_holding ⟨false⟩ (fun _ => .res false) = .attrError :=
  (c10_absent_client_raises (fun _ => .res false) ⟨false⟩).2.2.2 rfl

/-- Environment of the C1 counterexample: the device always answers serial 0
and every operation succeeds. -/
def envC1 : Env := ⟨fun _ => false, fun _ => false, fun _ => .ok 0, fun _ => false⟩

/-- Tasks of the C1 counterexample: two enabled tasks. -/
def itemsC1 : List Item := [⟨2, 5, false, true⟩, ⟨3, 6, false, true⟩]

/-- C1 counterexample: with serial 0, both tasks reach Ok(0) (status true and
a cell write recording serial 0 each), yet the seen-serial registry stays
empty for the whole run — `if ok and serial` treats serial 0 as falsy, so
the serial of an Ok task is not registered and a later task reaches Ok with
the same serial even though the device never stopped answering with it. -/
theorem c1_counterexample :
    statusEvents (run envC1 1 itemsC1).1.trace = [(2, true), (3, true)]
  ∧ cellEvents (run envC1 1 itemsC1).1.trace = [(2, 0), (3, 0)]
  ∧ (run envC1 1 itemsC1).1.seen = [] := by decide

/-- C1 (amended): discovery never succeeds on a serial already present in
the registry — when `_wait_for_addr1` returns found, its deciding read
returned a serial not in `prev_serials`; and once a task reaches Ok with a
nonzero serial, that serial is in the registry at the end of the run (the
registry only grows, so it stays there for the remainder). The nonzero
restriction is forced by the `if ok and serial` truthiness test. -/
theorem c1_discovery_new_and_registry (env : Env) (fuel : Nat) (s : WState)
    (items : List Item) (r v : Nat) :
    ((waitForAddr1 env fuel s).1 = some true →
      ∃ w, (waitForAddr1 env fuel s).2.trace.getLast? = some (.readReg 3 1 (.ok w))
        ∧ w ∉ s.seen)
  ∧ ((r, v) ∈ cellEvents (run env fuel items).1.trace → v ≠ 0 →
      v ∈ (run env fuel items).1.seen) :=
  ⟨waitForAddr1_found env fuel s,
   fun hm hv => runLoop_seen env fuel items initState
     (by intro a b hmem _; simp [initState] at hmem) r v hm hv⟩

/-- Environment of the C1 witness: the device answers serial 7. -/
def envC1W : Env := ⟨fun _ => false, fun _ => false, fun _ => .ok 7, fun _ => false⟩

/-- C1 witness: in a concrete run where one task reaches Ok(7), serial 7 is
in the registry at the end of the run; and a concrete discovery run reports
found with a fresh serial. -/
theorem c1_discovery_new_and_registry_witness :
    7 ∈ (run envC1W 1 [⟨2, 5, false, true⟩]).1.seen
  ∧ (waitForAddr1 envC1W 1 initState).1 = some true :=
  ⟨(c1_discovery_new_and_registry envC1W 1 initState [⟨2, 5, false, true⟩] 2 7).2
     (by decide) (by decide),
   by decide⟩

/-- Environment of the C2 counterexample: skip is pressed while the first
discovery skip check runs; reads would all fail. -/
def envC2 : Env := ⟨fun t => t == 2, fun _ => false, fun _ => .err, fun _ => false⟩

/-- Tasks of the C2 counterexample: two enabled tasks. -/
def itemsC2 : List Item := [⟨2, 5, false, true⟩, ⟨3, 6, false, true⟩]

/-- C2 counterexample: the operator sets skip during discovery of the first
of two enabled tasks.  The run ends immediately: no Skipped status is
reported (`_wait_for_addr1` only logs and returns False, and `run` then
breaks), and the second task is never processed — the trace stops at the
skip check that consumed the flag, and the flag is cleared. -/
theorem c2_counterexample :
    statusEvents (run envC2 3 itemsC2).1.trace = []
  ∧ (run envC2 3 itemsC2).1.trace
      = [.checkStop false, .checkStop false, .checkSkip true]
  ∧ (run envC2 3 itemsC2).1.skip = false := by decide

/-- C2 (amended): when discovery of an enabled task exits without finding a
device (skip observed — which clears the flag — or stop set), the run loop
terminates immediately with the state discovery left: no status callback is
reported for the task, no register write was issued, and the remaining tasks
are not processed. -/
theorem c2_skip_in_discovery_ends_run (env : Env) (fuel : Nat) (i : Item)
    (rest : List Item) (s s1 s2 : WState)
    (hen : i.enabled = true)
    (hst : obsStop env s = (false, s1))
    (hw : waitForAddr1 env fuel s1 = (some false, s2)) :
    runLoop env fuel (i :: rest) s = (s2, false)
  ∧ statusEvents s2.trace = statusEvents s.trace
  ∧ writeEvents s2.trace = writeEvents s.trace := by
  have hs1 := congrArg Prod.snd hst
  dsimp only at hs1
  obtain ⟨hwc, hws, hww, hwsv, hwseen⟩ := waitForAddr1_frame_eq _ _ _ _ _ hw
  refine ⟨?_, ?_, ?_⟩
  · simp only [runLoop, hen, if_true]
    rw [hst]
    simp only []
    rw [hw]
    simp
  · rw [hws, ← hs1]
    simp [obsStop, absorb, emit]
  · rw [hww, ← hs1]
    simp [obsStop, absorb, emit]

/-- State after the run-level stop check of the C2 witness. -/
def s1C2W : WState := ⟨1, 0, false, false, [], [.checkStop false]⟩

/-- State in which discovery of the C2 witness consumed the skip flag. -/
def s2C2W : WState :=
  ⟨3, 0, false, false, [], [.checkStop false, .checkStop false, .checkSkip true]⟩

/-- C2 witness: concrete run in which skip fires during discovery; the run
loop returns at once with no status events and no writes. -/
theorem c2_skip_in_discovery_ends_run_witness :
    runLoop envC2 3 itemsC2 initState = (s2C2W, false)
  ∧ statusEvents s2C2W.trace = statusEvents initState.trace
  ∧ writeEvents s2C2W.trace = writeEvents initState.trace := by
  have h := c2_skip_in_discovery_ends_run envC2 3 ⟨2, 5, false, true⟩
    [⟨3, 6, false, true⟩] initState s1C2W s2C2W (by decide) (by decide) (by decide)
  exact h

/-- Environment of the C3 counterexample: the feature-flag read at tick 3
returns 519 (bit 9 set), the write-back at tick 4 returns an error response,
everything else succeeds with value 7. -/
def envC3 : Env := ⟨fun _ => false, fun _ => false,
  fun t => if t == 4 then .err else if t == 3 then .ok 519 else .ok 7,
  fun _ => false⟩

/-- C3 counterexample: with buzzerDisable set, the write-back of the cleared
feature flags returns an error response (visible in the trace), yet the
configure step still ends Ok(7) and the worksheet cell is written — the
result of `write_single(255, ...)` is discarded without an isError check. -/
theorem c3_counterexample :
    (configure envC3 2 5 true initState).1 = (true, some 7)
  ∧ .writeReg 255 7 1 .err ∈ (configure envC3 2 5 true initState).2.trace
  ∧ .cellWrite 2 7 ∈ (configure envC3 2 5 true initState).2.trace := by decide

/-- C3 (amended): in the buzzer-disable step, a feature-flag read that fails
(error response or exception) fails the configuration, and a write-back that
raises an exception fails it too; but a write-back that returns an error
response is ignored and configuration proceeds.  Whenever configuration
fails, no worksheet cell is written.  The read occupies the state's current
tick and the write-back the next one. -/
theorem c3_buzzer_write_unchecked (env : Env) (s : WState) (v : Nat)
    (row newAddr : Nat) (buzzer : Bool) (res : Bool × Option Nat) (s2 : WState) :
    (env.resp s.tick = .err → (buzzerStep env s).1 = false)
  ∧ (env.resp s.tick = .exn → (buzzerStep env s).1 = false)
  ∧ (env.resp s.tick = .ok v → env.resp (s.tick + 1) = .exn →
      (buzzerStep env s).1 = false)
  ∧ (env.resp s.tick = .ok v → env.resp (s.tick + 1) = .err →
      (buzzerStep env s).1 = true)
  ∧ (configure env row newAddr buzzer s = (res, s2) → res.1 = false →
      cellEvents s2.trace = cellEvents s.trace) := by
  refine ⟨?_, ?_, ?_, ?_, ?_⟩
  · intro h
    simp [buzzerStep, busRead, busWrite, absorb, emit, h]
  · intro h
    simp [buzzerStep, busRead, busWrite, absorb, emit, h]
  · intro h1 h2
    simp [buzzerStep, busRead, busWrite, absorb, emit, h1, h2]
  · intro h1 h2
    simp [buzzerStep, busRead, busWrite, absorb, emit, h1, h2]
  · intro hcfg hf
    exact (configure_frame _ _ _ _ _ _ _ hcfg).2.2.2.1 hf

/-- Environment of the C3 witness: flag read gives 519, write-back errors. -/
def envC3W : Env := ⟨fun _ => false, fun _ => false,
  fun t => if t == 1 then .err else .ok 519, fun _ => false⟩

/-- C3 witness: concrete buzzer step whose write-back returns an error
response but which still reports success to the configuration sequence. -/
theorem c3_buzzer_write_unchecked_witness :
    (buzzerStep envC3W initState).1 = true :=
  (c3_buzzer_write_unchecked envC3W initState 519 0 0 false ((false, none))
    initState).2.2.2.1 (by decide) (by decide)

/-- Environment of the C4 counterexample: device answers serial 0, all
operations succeed. -/
def envC4 : Env := ⟨fun _ => false, fun _ => false, fun _ => .ok 0, fun _ => false⟩

/-- C4 counterexample: a task reaches Ok with serial 0; the worksheet cell is
written, but the workbook save — the durable half of the persistence sink —
is never invoked for this Ok task, because `if ok and serial` treats 0 as
falsy.  So the sink is not invoked exactly once per Ok task. -/
theorem c4_counterexample :
    statusEvents (run envC4 1 [⟨2, 5, false, true⟩]).1.trace = [(2, true)]
  ∧ cellEvents (run envC4 1 [⟨2, 5, false, true⟩]).1.trace = [(2, 0)]
  ∧ saveEvents (run envC4 1 [⟨2, 5, false, true⟩]).1.trace = [] := by decide

/-- C4 (amended): over a whole run the rows recorded by worksheet cell
writes are exactly the rows reported Ok, in order (one record per Ok task,
with that task's row); a successful configuration writes the cell with the
serial read at its start, as its final action, immediately after the
successful verification read at the new address (hence before the status
report and anything that follows, in particular before the next task's
discovery); a failed or skipped configuration writes no cell.  The workbook
save additionally follows only when the recorded serial is nonzero. -/
theorem c4_persist_iff_ok (env : Env) (fuel : Nat) (items : List Item)
    (row newAddr : Nat) (buzzer : Bool) (s : WState)
    (res : Bool × Option Nat) (s2 : WState) :
    cellRowsOnly (run env fuel items).1.trace = okRows (run env fuel items).1.trace
  ∧ (configure env row newAddr buzzer s = (res, s2) → res.1 = true →
      ∃ v, res = (true, some v)
        ∧ cellEvents s2.trace = cellEvents s.trace ++ [(row, v)]
        ∧ s2.trace.getLast? = some (.cellWrite row v)
        ∧ (∃ w, s2.trace.dropLast.getLast? = some (.readReg 2 newAddr (.ok w)))
        ∧ TraceExt (s.trace ++ [.checkSkip false, .readReg 3 1 (.ok v)]) s2.trace)
  ∧ (configure env row newAddr buzzer s = (res, s2) → res.1 = false →
      cellEvents s2.trace = cellEvents s.trace) := by
  refine ⟨runLoop_cells_ok env fuel items initState rfl, ?_, ?_⟩
  · intro h ht
    exact (configure_frame _ _ _ _ _ _ _ h).2.2.2.2 ht
  · intro h hf
    exact (configure_frame _ _ _ _ _ _ _ h).2.2.2.1 hf

/-- Environment of the C4 witness run: device answers serial 7. -/
def envC4W : Env := ⟨fun _ => false, fun _ => false, fun _ => .ok 7, fun _ => false⟩

/-- Environment of the C4 witness failing configuration: every read errs. -/
def envC4F : Env := ⟨fun _ => false, fun _ => false, fun _ => .err, fun _ => false⟩

/-- Final state of the C4 witness failing configuration. -/
def s2C4F : WState := ⟨2, 0, false, false, [], [.checkSkip false, .readReg 3 1 .err]⟩

/-- C4 witness: in a concrete successful run the recorded rows equal the Ok
rows, and a concrete failing configuration records no cell. -/
theorem c4_persist_iff_ok_witness :
    cellRowsOnly (run envC4W 1 [⟨2, 5, false, true⟩]).1.trace
      = okRows (run envC4W 1 [⟨2, 5, false, true⟩]).1.trace
  ∧ cellEvents (configure envC4F 2 5 false initState).2.trace
      = cellEvents initState.trace := by
  constructor
  · exact (c4_persist_iff_ok envC4W 1 [⟨2, 5, false, true⟩] 0 0 false initState
      ((false, none)) initState).1
  · have h : configure envC4F 2 5 false initState = ((false, none), s2C4F) := by decide
    have hc := (c4_persist_iff_ok envC4F 1 [] 2 5 false initState
      ((false, none)) s2C4F).2.2 h rfl
    rw [h]
    exact hc

/-- Environment of the C5 counterexample: device answers serial 7, all bus
operations succeed, every workbook save raises. -/
def envC5 : Env := ⟨fun _ => false, fun _ => false, fun _ => .ok 7, fun _ => true⟩

/-- Tasks of the C5 counterexample: two enabled tasks. -/
def itemsC5 : List Item := [⟨2, 5, false, true⟩, ⟨3, 6, false, true⟩]

/-- C5 counterexample: the first task reaches Ok(7) and its status is
reported, then the workbook save raises.  The exception is not caught
anywhere in `run`: the run aborts (crash flag), the save failure is the last
event (nothing is logged or reported after it), and the second task is never
processed — contradicting the claim that the failure is logged and the run
continues. -/
theorem c5_counterexample :
    (run envC5 1 itemsC5).2 = true
  ∧ statusEvents (run envC5 1 itemsC5).1.trace = [(2, true)]
  ∧ (run envC5 1 itemsC5).1.trace.getLast? = some (.saveWb false) := by decide

/-- C5 (amended): if the workbook save fails after a task reached Ok with a
nonzero serial, the task's outcome stays Ok — the status callback reporting
success fired before the save — but the exception propagates out of `run`:
the run aborts with exactly the failed save as its last event, and no later
task is processed. -/
theorem c5_save_failure_aborts_run (env : Env) (fuel : Nat) (i : Item)
    (rest : List Item) (s s1 s2 s3 : WState) (v : Nat)
    (hen : i.enabled = true)
    (hst : obsStop env s = (false, s1))
    (hw : waitForAddr1 env fuel s1 = (some true, s2))
    (hc : configure env i.row i.newAddr i.buzzer s2 = ((true, some v), s3))
    (hv : v ≠ 0)
    (hsave : env.saveFails (s3.tick + 1) = true) :
    (runLoop env fuel (i :: rest) s).2 = true
  ∧ (runLoop env fuel (i :: rest) s).1.trace
      = s3.trace ++ [.statusCb i.row true, .saveWb false]
  ∧ statusEvents (runLoop env fuel (i :: rest) s).1.trace
      = statusEvents s.trace ++ [(i.row, true)] := by
  have hs1 := congrArg Prod.snd hst
  dsimp only at hs1
  obtain ⟨hwc, hws, hww, hwsv, hwseen⟩ := waitForAddr1_frame_eq _ _ _ _ _ hw
  obtain ⟨c1, c2, c3, c4, c5⟩ := configure_frame _ _ _ _ _ _ _ hc
  have hrun : runLoop env fuel (i :: rest) s
      = ((doSave env { reportStatus env s3 i.row true with
          seen := v :: (reportStatus env s3 i.row true).seen }).2, true) := by
    simp only [runLoop, hen, if_true]
    rw [hst]
    simp only []
    rw [hw]
    simp only []
    rw [hc]
    simp only [if_neg hv]
    simp only [reportStatus, doSave, absorb, emit, hsave]
    simp
  rw [hrun]
  refine ⟨rfl, ?_, ?_⟩
  · simp [doSave, reportStatus, absorb, emit, hsave]
  · simp only [doSave, reportStatus, absorb, emit, hsave]
    simp only [statusEvents_append, statusEvents_cons, statusEvents_nil]
    rw [c2, hws, ← hs1]
    simp [obsStop, absorb, emit]

/-- Environment of the C5 witness: serial 7, saves always fail. -/
def envC5W : Env := ⟨fun _ => false, fun _ => false, fun _ => .ok 7, fun _ => true⟩

/-- Intermediate states of the C5 witness run. -/
def s1C5W : WState := ⟨1, 0, false, false, [], [.checkStop false]⟩

/-- State in which discovery of the C5 witness found the device. -/
def s2C5W : WState :=
  ⟨4, 0, false, false, [],
   [.checkStop false, .checkStop false, .checkSkip false, .readReg 3 1 (.ok 7)]⟩

/-- State after the successful configuration of the C5 witness. -/
def s3C5W : WState :=
  ⟨12, 500, false, false, [],
   [.checkStop false, .checkStop false, .checkSkip false, .readReg 3 1 (.ok 7),
    .checkSkip false, .readReg 3 1 (.ok 7), .writeReg 4 5 1 (.ok 7),
    .writeReg 17 42330 1 (.ok 7), .sleepMs 500, .checkSkip false,
    .readReg 2 5 (.ok 7), .cellWrite 2 7]⟩

/-- C5 witness: concrete run in which the save after an Ok(7) task fails;
the run crashes with the failed save as the final event. -/
theorem c5_save_failure_aborts_run_witness :
    (runLoop envC5W 1 (⟨2, 5, false, true⟩ :: [⟨3, 6, false, true⟩]) initState).2 = true
  ∧ (runLoop envC5W 1 (⟨2, 5, false, true⟩ :: [⟨3, 6, false, true⟩]) initState).1.trace
      = s3C5W.trace ++ [.statusCb 2 true, .saveWb false] := by
  have h := c5_save_failure_aborts_run envC5W 1 ⟨2, 5, false, true⟩
    [⟨3, 6, false, true⟩] initState s1C5W s2C5W s3C5W 7 (by decide) (by decide)
    (by decide) (by decide) (by decide) (by decide)
  exact ⟨h.1, h.2.1⟩

/-- Environment of the C7 counterexample: the operator sets skip during tick
2 — while the address write, issued before the reboot write, is running —
and the device answers serial 7 throughout. -/
def envC7 : Env := ⟨fun t => t == 2, fun _ => false, fun _ => .ok 7, fun _ => false⟩

/-- C7 counterexample: starting from a fresh state, the action at tick k is
the k-th trace entry.  The skip flag is set during tick 2 (the address
write), before the reboot write at tick 3, yet the reboot command 42330 is
still written to register 17: `_configure` checks skip only on entry and
during verification polling, so a skip set in between cannot stop the
reboot.  The flag is only consumed afterwards, by the verification poll. -/
theorem c7_counterexample :
    envC7.skipSetAt 2 = true
  ∧ (configure envC7 2 5 false initState).2.trace
      = [.checkSkip false, .readReg 3 1 (.ok 7), .writeReg 4 5 1 (.ok 7),
         .writeReg 17 42330 1 (.ok 7), .sleepMs 500, .checkSkip true]
  ∧ (configure envC7 2 5 false initState).1 = (false, none) := by decide

/-- C7 (amended): a skip that is observable at the entry check of
`_configure` aborts the task before any bus operation — the trace gains only
the consuming skip check, so in particular no reboot write is issued; and a
skip observed by a verification-poll check stops the poll at once with no
further liveness read (but by then the reboot write has already happened).
A skip set between these two checkpoints is not honored before the reboot
write. -/
theorem c7_skip_checkpoint_gate (env : Env) (row newAddr deadline fuel : Nat)
    (buzzer : Bool) (s sv : WState) :
    ((absorb env s).skip = true →
      configure env row newAddr buzzer s
        = ((false, none), emit { absorb env s with skip := false } (.checkSkip true)))
  ∧ (sv.clock < deadline → (absorb env sv).skip = true →
      verifyLoop env newAddr deadline (fuel + 1) sv
        = (.skipped, emit { absorb env sv with skip := false } (.checkSkip true))) := by
  constructor
  · intro h
    have h' : (s.skip || env.skipSetAt s.tick) = true := h
    simp [configure, obsSkip, absorb, emit, h']
  · intro h1 h2
    have h' : (sv.skip || env.skipSetAt sv.tick) = true := h2
    simp [verifyLoop, obsSkip, absorb, emit, h1, h']

/-- Environment of the C7 witness: skip is already pressed at tick 0. -/
def envC7W : Env := ⟨fun t => t == 0, fun _ => false, fun _ => .ok 7, fun _ => false⟩

/-- C7 witness: with skip pressed at configuration entry, the configure call
ends Skipped-with-no-bus-IO on a concrete input. -/
theorem c7_skip_checkpoint_gate_witness :
    configure envC7W 2 5 false initState
      = ((false, none),
         emit { absorb envC7W initState with skip := false } (.checkSkip true)) :=
  (c7_skip_checkpoint_gate envC7W 2 5 0 0 false initState initState).1 (by decide)

/-- C8: when the operator never sets skip and every liveness read at the new
address returns an error response, the verification poll times out: the
final clock stays under `deadline + POLL_STEP`, so the elapsed wait exceeds
the timeout window by less than one poll interval; the number of liveness
reads is bounded by the fuel (13 = POLL_ROUNDS + 1 as called by
`_configure`); and after a timed-out verification the configuration returns
Fail immediately with the very state the poll ended in — no further
verification attempt is made in the run. -/
theorem c8_verify_timeout_bound (env : Env) (newAddr deadline fuel : Nat)
    (s : WState) (row serial : Nat)
    (hresp : ∀ t, env.resp t = .err)
    (hskip : ∀ t, env.skipSetAt t = false)
    (hs : s.skip = false)
    (hcl : s.clock < deadline + POLL_STEP) :
    ((verifyLoop env newAddr deadline fuel s).1 = .timeout
      ∧ (verifyLoop env newAddr deadline fuel s).2.clock < deadline + POLL_STEP
      ∧ readCount (verifyLoop env newAddr deadline fuel s).2.trace
          ≤ readCount s.trace + fuel)
  ∧ (∀ s0 sv, verifyLoop env newAddr ((doSleep env s0 BOOT_WAIT).clock + POLL_MAX)
        (POLL_ROUNDS + 1) (doSleep env s0 BOOT_WAIT) = (.timeout, sv) →
      afterReboot env row newAddr serial s0 = ((false, none), sv)) := by
  refine ⟨verifyLoop_timeout env newAddr deadline fuel s hresp hskip hs hcl, ?_⟩
  intro s0 sv h
  simp only [afterReboot]
  rw [h]

/-- Environment of the C8 witness: every response is an error. -/
def envC8W : Env := ⟨fun _ => false, fun _ => false, fun _ => .err, fun _ => false⟩

/-- C8 witness: a concrete verification poll with deadline 3000 ms and the
fuel `_configure` passes times out with elapsed clock 3000 < 3250. -/
theorem c8_verify_timeout_bound_witness :
    (verifyLoop envC8W 5 3000 (POLL_ROUNDS + 1) initState).1 = .timeout
  ∧ (verifyLoop envC8W 5 3000 (POLL_ROUNDS + 1) initState).2.clock
      < 3000 + POLL_STEP := by
  have h := (c8_verify_timeout_bound envC8W 5 3000 (POLL_ROUNDS + 1) initState 2 7
    (fun t => rfl) (fun t => rfl) rfl (by decide)).1
  exact ⟨h.1, h.2.1⟩

/-- Environment of the first C9 run: skip is pressed during tick 4 (the
configure entry check), so the task is skipped after discovery. -/
def envC9a : Env := ⟨fun t => t == 4, fun _ => false, fun _ => .ok 7, fun _ => false⟩

/-- Environment of the second C9 run: the address write (tick 6) returns an
error response, so the task genuinely fails. -/
def envC9b : Env := ⟨fun _ => false, fun _ => false,
  fun t => if t == 6 then .err else .ok 7, fun _ => false⟩

/-- C9 counterexample: one run in which the task is skipped during
configuration (the trace shows the consuming skip check and no register
write at all) and one in which it fails on the address write (the trace
shows the error response): both report exactly the same status events,
`[(2, false)]` — `status_cb` receives a single boolean, so an observer of
the reported outcomes cannot tell a skipped task from a failed one. -/
theorem c9_counterexample :
    statusEvents (run envC9a 1 [⟨2, 5, false, true⟩]).1.trace = [(2, false)]
  ∧ statusEvents (run envC9b 1 [⟨2, 5, false, true⟩]).1.trace = [(2, false)]
  ∧ .checkSkip true ∈ (run envC9a 1 [⟨2, 5, false, true⟩]).1.trace
  ∧ writeEvents (run envC9a 1 [⟨2, 5, false, true⟩]).1.trace = []
  ∧ .writeReg 4 5 1 .err ∈ (run envC9b 1 [⟨2, 5, false, true⟩]).1.trace := by decide

/-- C9 (amended): the outcome reported for a task is the bare boolean
returned by `_configure`; a task skipped at the configuration entry check
and a task whose address write fails return the identical value
`(False, None)`, so their reported outcomes are equal — only Ok is
distinguishable, Skipped-during-configuration and Fail are not. -/
theorem c9_outcomes_equal (env1 env2 : Env)
    (row1 newAddr1 row2 newAddr2 : Nat) (bz1 bz2 : Bool) (s1 s2 : WState) (v : Nat)
    (h1 : (absorb env1 s1).skip = true)
    (hsk2 : (absorb env2 s2).skip = false)
    (hr2 : env2.resp (s2.tick + 1) = .ok v)
    (hw2 : env2.resp (s2.tick + 2) = .err) :
    (configure env1 row1 newAddr1 bz1 s1).1 = (false, none)
  ∧ (configure env2 row2 newAddr2 bz2 s2).1 = (false, none)
  ∧ (configure env1 row1 newAddr1 bz1 s1).1 = (configure env2 row2 newAddr2 bz2 s2).1 := by
  have ha : (configure env1 row1 newAddr1 bz1 s1).1 = (false, none) := by
    have h' : (s1.skip || env1.skipSetAt s1.tick) = true := h1
    simp [configure, obsSkip, absorb, emit, h']
  have hb : (configure env2 row2 newAddr2 bz2 s2).1 = (false, none) := by
    have h' : (s2.skip || env2.skipSetAt s2.tick) = false := hsk2
    simp [configure, obsSkip, busRead, busWrite, absorb, emit, h', hr2, hw2]
  exact ⟨ha, hb, ha.trans hb.symm⟩

/-- Environment of the C9 witness failing task: serial read succeeds with 7,
the address write at tick 2 errors. -/
def envC9W : Env := ⟨fun _ => false, fun _ => false,
  fun t => if t == 2 then .err else .ok 7, fun _ => false⟩

/-- C9 witness: a concrete skipped task and a concrete failed task report
equal outcomes. -/
theorem c9_outcomes_equal_witness :
    (configure envC7W 2 5 false initState).1 = (configure envC9W 3 6 true initState).1 := by
  have h := c9_outcomes_equal envC7W envC9W 2 5 3 6 false true initState
    initState 7 (by decide) (by decide) (by decide) (by decide)
  exact h.2.2

end Solid
